import Mathlib

/-!
Verification development for the PDF-READER repository.

The definitions below are a shallow embedding of the coordinate / rendering /
export pipeline implemented in src/components/PdfViewer.tsx.  JavaScript
numbers are modelled as exact rationals; the opaque collaborators of the
pipeline (Math.sqrt, Math.atan2, the viewport point conversion, the pdf-lib
load/save calls and the upload call) are modelled as explicit parameters.
-/

namespace PdfReader

/-- JavaScript String.prototype.trim: strip whitespace from both ends. -/
def jsTrim (s : String) : String :=
  String.mk (((s.data.dropWhile Char.isWhitespace).reverse.dropWhile
    Char.isWhitespace).reverse)

/-- The two variants of the `type` field of an annotation record
(src/types.ts). -/
inductive AnnotType
  | highlight
  | note
deriving DecidableEq

/-- A bbox rectangle (x, y, width, height), as stored on an annotation
record (src/types.ts: `bbox: [number, number, number, number]`). -/
structure Rect where
  x : ℚ
  y : ℚ
  w : ℚ
  h : ℚ
deriving DecidableEq

/-- A DOMRect as produced by getClientRects / getBoundingClientRect. -/
structure DomRect where
  left : ℚ
  top : ℚ
  width : ℚ
  height : ℚ
deriving DecidableEq

/-- The persisted annotation record of src/types.ts.  The optional fields
model the optional members of the TypeScript interface. -/
structure Annot where
  id : Option String := none
  page : ℤ
  bbox : Rect
  text : Option String := none
  type : AnnotType
  color : Option String := none
  opacity : Option ℚ := none
deriving DecidableEq

/-! ### Hex colour parsing

Both hexToRgb helpers in PdfViewer.tsx call JavaScript
`parseInt(digits, 16)` and then extract channels with
`(n >> 16) & 255`, `(n >> 8) & 255`, `n & 255`. -/

/-- Value of one hexadecimal digit character, none if the character is not a
hex digit. -/
def hexDigit (c : Char) : Option ℕ :=
  if '0' ≤ c ∧ c ≤ '9' then some (c.toNat - '0'.toNat)
  else if 'a' ≤ c ∧ c ≤ 'f' then some (c.toNat - 'a'.toNat + 10)
  else if 'A' ≤ c ∧ c ≤ 'F' then some (c.toNat - 'A'.toNat + 10)
  else none

/-- Accumulate hexadecimal digits, stopping at the first non-digit, the way
JavaScript parseInt consumes its input. -/
def parseHexAux : List Char → ℕ → ℕ
  | [], acc => acc
  | c :: cs, acc =>
    match hexDigit c with
    | some d => parseHexAux cs (16 * acc + d)
    | none => acc

/-- JavaScript `parseInt(s, 16)` on an already-trimmed string: none models
NaN (no leading hex digit), otherwise the value of the leading hex-digit
run. -/
def parseHex16 (s : String) : Option ℕ :=
  match s.data with
  | [] => none
  | c :: _ => if (hexDigit c).isSome then some (parseHexAux s.data 0) else none

/-- JavaScript `(n >> k) & 255` (for k in 0/8/16 this agrees with the 32-bit
signed shift); NaN (none) coerces to 0 under ToInt32. -/
def channel (n : Option ℕ) (k : ℕ) : ℕ :=
  ((n.getD 0) % 2 ^ 32) >>> k &&& 255

/-- hexToRgb of the filterValues memo (PdfViewer.tsx line 607): channel
triple of a hex colour string, using `hex.slice(1)`. -/
def hexToRgbChannels (hex : String) : ℚ × ℚ × ℚ :=
  let n := parseHex16 (hex.drop 1)
  ((channel n 16 : ℚ), (channel n 8 : ℚ), (channel n 0 : ℚ))

/-! ### ColorFilterCompiler (PdfViewer.tsx lines 606-629) -/

/-- One row of the 4×5 feColorMatrix emitted by the filterValues memo. -/
structure Row5 where
  m1 : ℚ
  m2 : ℚ
  m3 : ℚ
  m4 : ℚ
  m5 : ℚ
deriving DecidableEq

/-- The 4×5 colour matrix encoded by the string returned from the
filterValues memo. -/
structure ColorMatrix where
  rowR : Row5
  rowG : Row5
  rowB : Row5
  rowA : Row5
deriving DecidableEq

/-- The matrix computation of the filterValues memo, after the two hex
colours have been decoded to channel triples. -/
def filterMatrixOfChannels (textC pageC : ℚ × ℚ × ℚ) : ColorMatrix :=
  let tr := textC.1
  let tg := textC.2.1
  let tb := textC.2.2
  let br := pageC.1
  let bg := pageC.2.1
  let bb := pageC.2.2
  let rScale := (br - tr) / 255
  let gScale := (bg - tg) / 255
  let bScale := (bb - tb) / 255
  let rOffset := tr / 255
  let gOffset := tg / 255
  let bOffset := tb / 255
  { rowR := ⟨rScale, 0, 0, 0, rOffset⟩
    rowG := ⟨0, gScale, 0, 0, gOffset⟩
    rowB := ⟨0, 0, bScale, 0, bOffset⟩
    rowA := ⟨0, 0, 0, 1, 0⟩ }

/-- The filterValues memo: decode textColor and pageColor, then build the
matrix. -/
def filterValues (textColor pageColor : String) : ColorMatrix :=
  filterMatrixOfChannels (hexToRgbChannels textColor) (hexToRgbChannels pageColor)

/-! ### AnnotationStore operations -/

/-- createTextNote (PdfViewer.tsx lines 461-479).  The first argument models
the result of window.prompt (none = cancelled).  Returns the new annotation
collection and the batch handed to saveAnnotationsList (the persistence
calls issued). -/
def createTextNote (promptText : Option String) (page : ℤ) (x y : ℚ)
    (annots : List Annot) : List Annot × List Annot :=
  match promptText with
  | none => (annots, [])
  | some text =>
    if text = "" ∨ jsTrim text = "" then (annots, [])
    else
      let newAnn : Annot :=
        { page := page
          bbox := ⟨x, y, 0, 0⟩
          type := AnnotType.note
          text := some text
          color := some "#fef9c3"
          opacity := some 1 }
      (annots ++ [newAnn], [newAnn])

/-- onDeleteAnnotation (PdfViewer.tsx lines 811-814):
`setAnnotations(prev => prev.filter(a => a.id !== id))`. -/
def onDeleteAnnot (id : String) (annots : List Annot) : List Annot :=
  annots.filter (fun a => decide (a.id ≠ some id))

/-! ### PageRenderer: hasText (PdfViewer.tsx line 146) -/

/-- One item of the text content returned by getTextContent: a string plus
the run's local affine transform [scaleX, skewX, skewY, scaleY, tx, ty]. -/
structure TextItem where
  str : String
  scaleX : ℚ
  skewX : ℚ
  skewY : ℚ
  scaleY : ℚ
  tx : ℚ
  ty : ℚ
deriving DecidableEq

/-- The value stored by `setHasText(textContent.items.length > 0)`. -/
def computeHasText (items : List TextItem) : Bool :=
  decide (0 < items.length)

/-! ### PageRenderer: custom text layer (PdfViewer.tsx lines 32-76) -/

/-- The opaque number-library collaborators Math.sqrt and Math.atan2 used by
renderCustomTextLayer. -/
structure MathFns where
  sqrt : ℚ → ℚ
  atan2 : ℚ → ℚ → ℚ

/-- The page viewport collaborator: its scale and its
convertToViewportPoint conversion (point space to viewport pixel space). -/
structure Viewport where
  scale : ℚ
  convertToViewportPoint : ℚ → ℚ → ℚ × ℚ

/-- The geometry of one span element appended to the text layer: text,
style.left, style.top, style.fontSize, and the rotation applied through
style.transform when the angle is nonzero. -/
structure Span where
  text : String
  left : ℚ
  top : ℚ
  fontSize : ℚ
  rotation : Option ℚ
deriving DecidableEq

/-- The per-item body of renderCustomTextLayer: none when the item is
skipped (empty or purely whitespace), otherwise the span produced for it. -/
def renderItem (m : MathFns) (vp : Viewport) (item : TextItem) : Option Span :=
  if item.str = "" ∨ jsTrim item.str = "" then none
  else
    let fontHeight := m.sqrt (item.scaleY * item.scaleY + item.skewY * item.skewY)
    let fontSize := fontHeight * vp.scale
    let p := vp.convertToViewportPoint item.tx item.ty
    let angle := m.atan2 item.skewX item.scaleX
    some
      { text := item.str
        left := p.1
        top := p.2 - fontSize
        fontSize := fontSize
        rotation := if angle ≠ 0 then some angle else none }

/-- renderCustomTextLayer: the ordered list of spans appended to the
container. -/
def renderCustomTextLayer (m : MathFns) (vp : Viewport) (items : List TextItem) :
    List Span :=
  items.filterMap (renderItem m vp)

/-! ### SelectionTracker (PdfViewer.tsx lines 368-425) -/

/-- The interaction tool selected in the toolbar. -/
inductive Tool
  | cursor
  | text
deriving DecidableEq

/-- The DOM events on which the selection tracker is registered
(PdfViewer.tsx line 423: a single mouseup listener on document). -/
def selectionTrackerEvents : List String := ["mouseup"]

/-- The delays, in milliseconds after the mouse-release event, at which
handleMouseUp reads the platform text-selection.  The handler returns before
calling window.getSelection() when the text tool is active or when the event
target sits inside interactive chrome (button, input, select, annotation
element); in every other case it calls window.getSelection() directly in the
handler body — there is no setTimeout in the handler, so the inspection
happens at delay 0. -/
def mouseUpInspectionDelays (tool : Tool) (targetIsChrome : Bool) : List ℕ :=
  if tool = Tool.text then []
  else if targetIsChrome then []
  else [0]

/-! ### Pending selection and createHighlight (PdfViewer.tsx lines 428-459) -/

/-- The SelectionState value produced by handleMouseUp. -/
structure SelState where
  page : ℤ
  x : ℚ
  y : ℚ
  text : String
  rects : List DomRect
deriving DecidableEq

/-- The slice of viewer state read and written by createHighlight. -/
structure ViewerState where
  annots : List Annot
  selection : Option SelState
  highlightColor : String
  highlightOpacity : ℚ
deriving DecidableEq

/-- createHighlight.  The first argument models the bounding rect of the
canvas element looked up in the DOM (none when the page or canvas is not
found, in which case the function returns early).  Returns the new state and
the batch of new annotation records handed to saveAnnotationsList. -/
def createHighlight (canvasRect : Option DomRect) (st : ViewerState) :
    ViewerState × List Annot :=
  match st.selection with
  | none => (st, [])
  | some sel =>
    match canvasRect with
    | none => (st, [])
    | some c =>
      let newAnns : List Annot := sel.rects.map (fun r =>
        { page := sel.page
          bbox := ⟨r.left - c.left, r.top - c.top, r.width, r.height⟩
          type := AnnotType.highlight
          text := some sel.text
          color := some st.highlightColor
          opacity := some st.highlightOpacity })
      ({ st with annots := st.annots ++ newAnns, selection := none }, newAnns)

/-! ### ExportCompiler (handleSaveToDrive, PdfViewer.tsx lines 495-585) -/

/-- A pdf-lib page handle: its media box size in points. -/
structure PageHandle where
  width : ℚ
  height : ℚ
deriving DecidableEq

/-- One page.drawRectangle call issued by the export loop.  The colour is
the rgb triple passed to pdf-lib (each component already divided by 255);
opacity is none when the call does not pass one. -/
structure DrawOp where
  x : ℚ
  y : ℚ
  width : ℚ
  height : ℚ
  color : ℚ × ℚ × ℚ
  opacity : Option ℚ
deriving DecidableEq

/-- JavaScript `s.replace(char, empty)`: remove the first occurrence. -/
def removeFirstHash : List Char → List Char
  | [] => []
  | c :: cs => if c = '#' then cs else c :: removeFirstHash cs

/-- hexToRgb of handleSaveToDrive (lines 516-522): parse the hex string with
the first hash sign removed, then build rgb(r/255, g/255, b/255). -/
def hexToRgbColor (hex : String) : ℚ × ℚ × ℚ :=
  let n := parseHex16 (String.mk (removeFirstHash hex.data))
  ((channel n 16 : ℚ) / 255, (channel n 8 : ℚ) / 255, (channel n 0 : ℚ) / 255)

/-- JavaScript `o || d` on an optional string: undefined and the empty
string both fall back to the default. -/
def jsOrDefault (o : Option String) (d : String) : String :=
  match o with
  | none => d
  | some s => if s = "" then d else s

/-- JavaScript array indexing `pages[i]` with a possibly negative index:
undefined (none) outside the array bounds. -/
def jsIndex (pages : List PageHandle) (i : ℤ) : Option PageHandle :=
  if 0 ≤ i then pages.get? i.toNat else none

/-- JavaScript truthiness of `ann.text`. -/
def annTextTruthy (a : Annot) : Bool :=
  match a.text with
  | none => false
  | some t => decide (t ≠ "")

/-- One iteration of the export drawing loop (lines 525-567): skip
annotations whose page exceeds the page count, otherwise read the page,
convert the bbox and emit the drawRectangle call.  Reading
`pages[ann.page - 1]` when the index is out of range models the JavaScript
TypeError thrown by `undefined.getSize()`. -/
def drawAnnot (pages : List PageHandle) (scale : ℚ) (ann : Annot) :
    Except String (List DrawOp) :=
  if ann.page > (pages.length : ℤ) then Except.ok []
  else
    match jsIndex pages (ann.page - 1) with
    | none => Except.error "TypeError: page is undefined"
    | some page =>
      let height := page.height
      let rectX := ann.bbox.x / scale
      let rectY := ann.bbox.y / scale
      let rectW := ann.bbox.w / scale
      let rectH := ann.bbox.h / scale
      let pdfY := height - rectY - rectH
      match ann.type with
      | AnnotType.highlight =>
        Except.ok [{ x := rectX, y := pdfY, width := rectW, height := rectH
                     color := hexToRgbColor (jsOrDefault ann.color "#facc15")
                     opacity := some (ann.opacity.getD (2 / 5)) }]
      | AnnotType.note =>
        if annTextTruthy ann then
          Except.ok [{ x := rectX, y := height - rectY - 20, width := 150, height := 50
                       color := hexToRgbColor (jsOrDefault ann.color "#fef9c3")
                       opacity := none }]
        else Except.ok []

/-- The export drawing loop over the annotation collection, in order. -/
def drawLoop (pages : List PageHandle) (scale : ℚ) : List Annot → Except String (List DrawOp)
  | [] => Except.ok []
  | ann :: rest =>
    match drawAnnot pages scale ann with
    | Except.error e => Except.error e
    | Except.ok ops =>
      match drawLoop pages scale rest with
      | Except.error e => Except.error e
      | Except.ok more => Except.ok (ops ++ more)

/-- The export drawing loop under fault injection: failAt i = true makes the
i-th iteration throw before drawing, modelling a failure injected mid-loop. -/
def drawLoopInj (pages : List PageHandle) (scale : ℚ) (failAt : ℕ → Bool) :
    List Annot → ℕ → Except String (List DrawOp)
  | [], _ => Except.ok []
  | ann :: rest, i =>
    if failAt i then Except.error "injected failure"
    else
      match drawAnnot pages scale ann with
      | Except.error e => Except.error e
      | Except.ok ops =>
        match drawLoopInj pages scale failAt rest (i + 1) with
        | Except.error e => Except.error e
        | Except.ok more => Except.ok (ops ++ more)

/-- The state read by handleSaveToDrive: the annotation collection and the
original document bytes held in originalBlob. -/
structure ExportState where
  annots : List Annot
  originalBytes : List ℕ
deriving DecidableEq

/-- The fallible collaborators of the export operation: PDFDocument.load,
pdfDoc.save, and the injected mid-loop failure. -/
structure ExportEnv where
  load : List ℕ → Except String (List PageHandle)
  save : List DrawOp → Except String (List ℕ)
  failAt : ℕ → Bool

/-- The body of the try block of handleSaveToDrive: load the original bytes,
run the drawing loop, serialize. -/
def runExport (env : ExportEnv) (scale : ℚ) (st : ExportState) :
    Except String (List ℕ) :=
  match env.load st.originalBytes with
  | Except.error e => Except.error e
  | Except.ok pages =>
    match drawLoopInj pages scale env.failAt st.annots 0 with
    | Except.error e => Except.error e
    | Except.ok ops =>
      match env.save ops with
      | Except.error e => Except.error e
      | Except.ok bytes => Except.ok bytes

/-- handleSaveToDrive around its try/catch: on success the produced bytes
are handed to uploadFileToDrive, on any failure the catch block alerts and
nothing is uploaded.  The handler never writes the annotation collection or
the original blob, so the state is returned unchanged. -/
def handleSaveToDrive (env : ExportEnv) (scale : ℚ) (st : ExportState) :
    ExportState × List (List ℕ) :=
  match runExport env scale st with
  | Except.ok bytes => (st, [bytes])
  | Except.error _ => (st, [])

/-! ## Theorems -/

/-- Claim C2: for every pair of endpoint colour channel triples, the colour
filter matrix has scale (bg − text) / 255 and offset text / 255 in each of
the R, G, B rows, with an identity alpha row; white page / black text gives
the identity transform and black page / white text gives scale −1, offset 1
on every channel. -/
theorem claim_C2_filter_matrix :
    (∀ tr tg tb br bg bb : ℚ,
      filterMatrixOfChannels (tr, tg, tb) (br, bg, bb) =
        ⟨⟨(br - tr) / 255, 0, 0, 0, tr / 255⟩,
         ⟨0, (bg - tg) / 255, 0, 0, tg / 255⟩,
         ⟨0, 0, (bb - tb) / 255, 0, tb / 255⟩,
         ⟨0, 0, 0, 1, 0⟩⟩) ∧
    filterValues "#000000" "#ffffff" =
      ⟨⟨1, 0, 0, 0, 0⟩, ⟨0, 1, 0, 0, 0⟩, ⟨0, 0, 1, 0, 0⟩, ⟨0, 0, 0, 1, 0⟩⟩ ∧
    filterValues "#ffffff" "#000000" =
      ⟨⟨-1, 0, 0, 0, 1⟩, ⟨0, -1, 0, 0, 1⟩, ⟨0, 0, -1, 0, 1⟩, ⟨0, 0, 0, 1, 0⟩⟩ := by
  have hw : hexToRgbChannels "#ffffff" = (255, 255, 255) := by
    simp +decide [hexToRgbChannels, channel, parseHex16, parseHexAux, hexDigit]
  have hb : hexToRgbChannels "#000000" = (0, 0, 0) := by
    simp +decide [hexToRgbChannels, channel, parseHex16, parseHexAux, hexDigit]
  refine ⟨fun tr tg tb br bg bb => rfl, ?_, ?_⟩
  · rw [filterValues, hw, hb, filterMatrixOfChannels]
    norm_num
  · rw [filterValues, hw, hb, filterMatrixOfChannels]
    norm_num

/-- Claim C5: a note whose prompt is cancelled or whose text is empty or
whitespace-only after trimming adds no annotation and issues no persistence
call; a non-blank text adds exactly one note annotation with zero-size bbox
at the click point and hands exactly that annotation to persistence. -/
theorem claim_C5_createTextNote (t : Option String) (page : ℤ) (x y : ℚ)
    (annots : List Annot) :
    (t = none → createTextNote t page x y annots = (annots, [])) ∧
    (∀ s, t = some s → jsTrim s = "" →
      createTextNote t page x y annots = (annots, [])) ∧
    (∀ s, t = some s → jsTrim s ≠ "" →
      createTextNote t page x y annots =
        (annots ++ [{ page := page, bbox := ⟨x, y, 0, 0⟩, type := AnnotType.note,
                      text := some s, color := some "#fef9c3", opacity := some 1 }],
         [{ page := page, bbox := ⟨x, y, 0, 0⟩, type := AnnotType.note,
            text := some s, color := some "#fef9c3", opacity := some 1 }])) := by
  refine ⟨?_, ?_, ?_⟩
  · intro h
    subst h
    rfl
  · intro s hs htrim
    subst hs
    simp [createTextNote, htrim]
  · intro s hs htrim
    subst hs
    have hs0 : s ≠ "" := by
      intro h
      subst h
      exact htrim rfl
    simp [createTextNote, hs0, htrim]

/-- Claim C5 witness: whitespace-only text is a no-op. -/
theorem claim_C5_witness :
    createTextNote (some "   ") 2 7 9 [] = ([], []) :=
  (claim_C5_createTextNote (some "   ") 2 7 9 []).2.1 "   " rfl (by decide)

/-- Claim C6: delete removes exactly the annotations carrying the given id,
keeps the rest in order, is a no-op when no annotation carries the id, and
is idempotent. -/
theorem claim_C6_delete (id : String) (annots : List Annot) :
    (∀ a, a ∈ onDeleteAnnot id annots ↔ a ∈ annots ∧ a.id ≠ some id) ∧
    ((∀ a ∈ annots, a.id ≠ some id) → onDeleteAnnot id annots = annots) ∧
    onDeleteAnnot id (onDeleteAnnot id annots) = onDeleteAnnot id annots ∧
    (onDeleteAnnot id annots).Sublist annots := by
  refine ⟨?_, ?_, ?_, ?_⟩
  · intro a
    simp [onDeleteAnnot, List.mem_filter]
  · intro h
    rw [onDeleteAnnot, List.filter_eq_self]
    intro a ha
    simpa using h a ha
  · simp [onDeleteAnnot, List.filter_filter]
  · exact List.filter_sublist annots

/-- Claim C6 witness: deleting an id that no annotation carries leaves the
collection unchanged. -/
theorem claim_C6_witness :
    onDeleteAnnot "z"
        [{ id := some "a", page := 1, bbox := ⟨0, 0, 1, 1⟩, type := AnnotType.highlight }] =
      [{ id := some "a", page := 1, bbox := ⟨0, 0, 1, 1⟩, type := AnnotType.highlight }] :=
  (claim_C6_delete "z" _).2.1 (by decide)

/-- Claim C7: after content extraction the hasText flag is false exactly for
a page with zero extracted text runs and true for a page with at least one
run. -/
theorem claim_C7_hasText (items : List TextItem) :
    (computeHasText items = false ↔ items = []) ∧
    (computeHasText items = true ↔ 1 ≤ items.length) := by
  cases items <;> simp [computeHasText]

/-- Claim C9 counterexample: with the cursor tool active and the event not
originating from interactive chrome, the handler inspects the platform
selection at delay 0 — synchronously inside the mouse-release handler — so
the claimed 50 ms settle delay does not exist. -/
theorem claim_C9_counterexample :
    (0 : ℕ) ∈ mouseUpInspectionDelays Tool.cursor false := by
  decide

/-- Claim C9 amended: only a mouse-release listener is registered, and every
inspection of the platform selection it performs happens synchronously
(delay 0) inside the handler; there is no settle delay. -/
theorem claim_C9_sync :
    selectionTrackerEvents = ["mouseup"] ∧
    ∀ tool chrome, mouseUpInspectionDelays tool chrome = [] ∨
      mouseUpInspectionDelays tool chrome = [0] := by
  refine ⟨rfl, ?_⟩
  intro tool chrome
  cases tool <;> cases chrome <;> decide

/-- Claim C1: every exported highlight bbox (x, y, w, h) captured at scale s
on a page of point-height H is drawn at (x/s, H − y/s − h/s, w/s, h/s); in
particular bbox (100, 50, 200, 20) at scale 1.3 on a 792-point page exports
to x ≈ 76.92, y ≈ 738.15, w ≈ 153.85, h ≈ 15.38, each within 0.01. -/
theorem claim_C1_export_rect (pages : List PageHandle) (scale : ℚ) (ann : Annot)
    (p : PageHandle) (hty : ann.type = AnnotType.highlight)
    (hle : ann.page ≤ (pages.length : ℤ))
    (hpage : jsIndex pages (ann.page - 1) = some p) :
    drawAnnot pages scale ann =
      Except.ok [{ x := ann.bbox.x / scale,
                   y := p.height - ann.bbox.y / scale - ann.bbox.h / scale,
                   width := ann.bbox.w / scale,
                   height := ann.bbox.h / scale,
                   color := hexToRgbColor (jsOrDefault ann.color "#facc15"),
                   opacity := some (ann.opacity.getD (2 / 5)) }] ∧
    drawLoop [⟨612, 792⟩] (13 / 10)
        [{ page := 1, bbox := ⟨100, 50, 200, 20⟩, type := AnnotType.highlight }] =
      Except.ok [{ x := 1000 / 13, y := 9596 / 13, width := 2000 / 13,
                   height := 200 / 13, color := hexToRgbColor "#facc15",
                   opacity := some (2 / 5) }] ∧
    ((1000 : ℚ) / 13 - 7692 / 100 < 1 / 100 ∧ (7692 : ℚ) / 100 - 1000 / 13 < 1 / 100) ∧
    ((9596 : ℚ) / 13 - 73815 / 100 < 1 / 100 ∧ (73815 : ℚ) / 100 - 9596 / 13 < 1 / 100) ∧
    ((2000 : ℚ) / 13 - 15385 / 100 < 1 / 100 ∧ (15385 : ℚ) / 100 - 2000 / 13 < 1 / 100) ∧
    ((200 : ℚ) / 13 - 1538 / 100 < 1 / 100 ∧ (1538 : ℚ) / 100 - 200 / 13 < 1 / 100) := by
  refine ⟨?_, ?_, by norm_num, by norm_num, by norm_num, by norm_num⟩
  · unfold drawAnnot
    rw [if_neg (not_lt.mpr hle), hpage, hty]
  · simp +decide [drawLoop, drawAnnot, jsIndex, jsOrDefault, annTextTruthy]
    norm_num

/-- Claim C1 witness: the concrete scenario of the claim. -/
theorem claim_C1_witness :
    drawAnnot [⟨612, 792⟩] (13 / 10)
        { page := 1, bbox := ⟨100, 50, 200, 20⟩, type := AnnotType.highlight } =
      Except.ok [{ x := (100 : ℚ) / (13 / 10),
                   y := (792 : ℚ) - 50 / (13 / 10) - 20 / (13 / 10),
                   width := (200 : ℚ) / (13 / 10),
                   height := (20 : ℚ) / (13 / 10),
                   color := hexToRgbColor (jsOrDefault none "#facc15"),
                   opacity := some ((none : Option ℚ).getD (2 / 5)) }] :=
  (claim_C1_export_rect [⟨612, 792⟩] (13 / 10)
    { page := 1, bbox := ⟨100, 50, 200, 20⟩, type := AnnotType.highlight }
    ⟨612, 792⟩ rfl (by decide) (by decide)).1

/-- Claim C3: confirming a pending selection of k line-rectangles appends
exactly k highlight annotations — one per rectangle, bbox converted to
canvas-relative page-pixel coordinates — all sharing page, text, colour and
opacity, leaves the previously stored annotations unchanged in front, and
clears the pending selection. -/
theorem claim_C3_createHighlight (st : ViewerState) (sel : SelState) (c : DomRect)
    (hsel : st.selection = some sel) :
    (createHighlight (some c) st).1.annots =
        st.annots ++ (createHighlight (some c) st).2 ∧
    (createHighlight (some c) st).2.length = sel.rects.length ∧
    List.Forall₂ (fun r a =>
        Annot.bbox a = ⟨r.left - c.left, r.top - c.top, r.width, r.height⟩ ∧
        Annot.page a = sel.page ∧ Annot.type a = AnnotType.highlight ∧
        Annot.text a = some sel.text ∧ Annot.color a = some st.highlightColor ∧
        Annot.opacity a = some st.highlightOpacity ∧ Annot.id a = none)
      sel.rects (createHighlight (some c) st).2 ∧
    (createHighlight (some c) st).1.selection = none := by
  simp only [createHighlight, hsel]
  refine ⟨by trivial, by simp, ?_, by trivial⟩
  rw [List.forall₂_map_right_iff]
  rw [List.forall₂_same]
  intro r _
  exact ⟨rfl, rfl, rfl, rfl, rfl, rfl, rfl⟩

/-- Pending selection used by the claim C3 witness: two line-rectangles. -/
def selC3 : SelState :=
  ⟨1, 5, 6, "lorem", [⟨10, 20, 30, 8⟩, ⟨10, 28, 25, 8⟩]⟩

/-- Viewer state used by the claim C3 witness. -/
def stC3 : ViewerState :=
  { annots := [{ id := some "a", page := 1, bbox := ⟨0, 0, 1, 1⟩, type := AnnotType.note }]
    selection := some selC3
    highlightColor := "#facc15"
    highlightOpacity := 2 / 5 }

/-- Canvas bounding rectangle used by the claim C3 witness. -/
def cC3 : DomRect := ⟨3, 4, 0, 0⟩

/-- Claim C3 witness: a two-rectangle selection yields two new annotations
and clears the pending selection. -/
theorem claim_C3_witness :
    (createHighlight (some cC3) stC3).2.length = selC3.rects.length ∧
    (createHighlight (some cC3) stC3).1.selection = none := by
  have h := claim_C3_createHighlight stC3 selC3 cC3 rfl
  exact ⟨h.2.1, h.2.2.2⟩

/-- Claim C8: every span the overlay builder emits for a text run with
transform (scaleX, skewX, skewY, scaleY, tx, ty) has
fontSize = sqrt(scaleY² + skewY²) · scale, its left at the converted
viewport x, its top at the converted viewport y minus fontSize, and a
rotation of atan2(skewX, scaleX) applied exactly when that angle is
nonzero. -/
theorem claim_C8_overlay (m : MathFns) (vp : Viewport) (item : TextItem) (sp : Span)
    (h : renderItem m vp item = some sp) :
    sp.fontSize = m.sqrt (item.scaleY * item.scaleY + item.skewY * item.skewY) * vp.scale ∧
    sp.left = (vp.convertToViewportPoint item.tx item.ty).1 ∧
    sp.top = (vp.convertToViewportPoint item.tx item.ty).2 - sp.fontSize ∧
    sp.rotation = (if m.atan2 item.skewX item.scaleX ≠ 0
      then some (m.atan2 item.skewX item.scaleX) else none) ∧
    sp.text = item.str := by
  unfold renderItem at h
  split at h
  · exact absurd h (by simp)
  · injection h with h
    subst h
    exact ⟨rfl, rfl, rfl, rfl, rfl⟩

/-- Stand-in for the opaque numeric collaborators in the claim C8 witness:
sqrt is the identity and atan2 is addition. -/
def mW : MathFns := ⟨fun q => q, fun a b => a + b⟩

/-- Viewport used by the claim C8 witness: scale 2, identity conversion. -/
def vpW : Viewport := ⟨2, fun a b => (a, b)⟩

/-- Text run used by the claim C8 witness. -/
def itemW : TextItem := ⟨"hi", 1, 2, 3, 4, 5, 6⟩

/-- Span produced for itemW: fontSize = (4·4 + 3·3) · 2 = 50 under the
identity sqrt, top = 6 − 50, rotation = 2 + 1 under the additive atan2. -/
def spW : Span := ⟨"hi", 5, -44, 50, some 3⟩

/-- Claim C8 witness: the overlay formulas evaluated on a concrete run. -/
theorem claim_C8_witness :
    renderItem mW vpW itemW = some spW ∧
    spW.fontSize = mW.sqrt (itemW.scaleY * itemW.scaleY + itemW.skewY * itemW.skewY) * vpW.scale ∧
    spW.left = (vpW.convertToViewportPoint itemW.tx itemW.ty).1 ∧
    spW.top = (vpW.convertToViewportPoint itemW.tx itemW.ty).2 - spW.fontSize ∧
    spW.rotation = (if mW.atan2 itemW.skewX itemW.scaleX ≠ 0
      then some (mW.atan2 itemW.skewX itemW.scaleX) else none) ∧
    spW.text = itemW.str := by
  have h : renderItem mW vpW itemW = some spW := by
    simp +decide [renderItem, mW, vpW, itemW, spW, jsTrim]
    norm_num
  exact ⟨h, claim_C8_overlay mW vpW itemW spW h⟩

/-- Claim C4: the export is all-or-nothing.  The handler never mutates the
annotation collection or the original bytes, any failing run hands zero
byte buffers to the upload collaborator, and a failure of the document
load, a failure injected at the first iteration of the drawing loop, or a
failing serialization each make the run fail. -/
theorem claim_C4_all_or_nothing (env : ExportEnv) (scale : ℚ) (st : ExportState) :
    (handleSaveToDrive env scale st).1 = st ∧
    (∀ e, runExport env scale st = Except.error e →
      handleSaveToDrive env scale st = (st, [])) ∧
    (∀ e, env.load st.originalBytes = Except.error e →
      ∃ msg, runExport env scale st = Except.error msg) ∧
    (st.annots ≠ [] → env.failAt 0 = true →
      ∃ msg, runExport env scale st = Except.error msg) ∧
    ((∀ ops, ∃ e, env.save ops = Except.error e) →
      ∃ msg, runExport env scale st = Except.error msg) := by
  refine ⟨?_, ?_, ?_, ?_, ?_⟩
  · cases hr : runExport env scale st <;> simp [handleSaveToDrive, hr]
  · intro e he
    simp [handleSaveToDrive, he]
  · intro e he
    exact ⟨e, by simp [runExport, he]⟩
  · intro hne hf
    cases hl : env.load st.originalBytes with
    | error e => exact ⟨e, by simp [runExport, hl]⟩
    | ok pages =>
      obtain ⟨a, rest, hcons⟩ := List.exists_cons_of_ne_nil hne
      refine ⟨"injected failure", ?_⟩
      simp [runExport, hl, hcons, drawLoopInj, hf]
  · intro hs
    cases hl : env.load st.originalBytes with
    | error e => exact ⟨e, by simp [runExport, hl]⟩
    | ok pages =>
      cases hd : drawLoopInj pages scale env.failAt st.annots 0 with
      | error e => exact ⟨e, by simp [runExport, hl, hd]⟩
      | ok ops =>
        obtain ⟨e, he⟩ := hs ops
        exact ⟨e, by simp [runExport, hl, hd, he]⟩

/-- Export environment for the claim C4 witness: the document load fails. -/
def envC4 : ExportEnv :=
  ⟨fun _ => Except.error "load failed", fun _ => Except.ok [], fun _ => false⟩

/-- Export state for the claim C4 witness. -/
def stC4 : ExportState :=
  ⟨[{ page := 1, bbox := ⟨0, 0, 1, 1⟩, type := AnnotType.highlight }], [1, 2, 3]⟩

/-- Claim C4 witness: a failing document load uploads nothing and leaves the
state unchanged. -/
theorem claim_C4_witness :
    handleSaveToDrive envC4 1 stC4 = (stC4, []) :=
  (claim_C4_all_or_nothing envC4 1 stC4).2.1 "load failed" rfl

/-- Claim C10: an annotation whose 1-based page index exceeds the number of
pages is silently skipped by the export loop — nothing is drawn for it, no
error arises from it, and removing it from anywhere in the collection does
not change the loop's result — while an annotation with page index below 1
is not guarded and makes the loop throw. -/
theorem claim_C10_skip (pages : List PageHandle) (scale : ℚ) (ann : Annot) :
    (ann.page > (pages.length : ℤ) →
      drawAnnot pages scale ann = Except.ok [] ∧
      ∀ xs ys, drawLoop pages scale (xs ++ ann :: ys) = drawLoop pages scale (xs ++ ys)) ∧
    (ann.page < 1 →
      drawAnnot pages scale ann = Except.error "TypeError: page is undefined") := by
  constructor
  · intro hgt
    have hskip : drawAnnot pages scale ann = Except.ok [] := by
      rw [drawAnnot, if_pos hgt]
    refine ⟨hskip, ?_⟩
    intro xs ys
    induction xs with
    | nil =>
      simp only [List.nil_append]
      rw [drawLoop, hskip]
      cases drawLoop pages scale ys <;> simp
    | cons x xs ih =>
      simp only [List.cons_append]
      rw [drawLoop, drawLoop, ih]
  · intro hlt
    have h1 : ¬ ann.page > (pages.length : ℤ) := by
      have h0 : (0 : ℤ) ≤ (pages.length : ℤ) := Int.natCast_nonneg _
      omega
    have h2 : jsIndex pages (ann.page - 1) = none := by
      rw [jsIndex, if_neg]
      omega
    rw [drawAnnot, if_neg h1, h2]

/-- Page list for the claim C10 witness: a single page. -/
def pagesW : List PageHandle := [⟨612, 792⟩]

/-- Annotation for the claim C10 witness: page 5 of a 1-page document. -/
def annOverW : Annot := { page := 5, bbox := ⟨1, 2, 3, 4⟩, type := AnnotType.highlight }

/-- Claim C10 witness: the out-of-range annotation draws nothing and its
presence does not change the loop's result. -/
theorem claim_C10_witness :
    drawAnnot pagesW 1 annOverW = Except.ok [] ∧
    drawLoop pagesW 1 ([] ++ annOverW :: []) = drawLoop pagesW 1 ([] ++ []) := by
  have h := (claim_C10_skip pagesW 1 annOverW).1 (by decide)
  exact ⟨h.1, h.2 [] []⟩

end PdfReader
